import Mathlib

/-!
Shallow embedding of the routing, planning and orchestration logic of
samples/copilot-studio-extensibility/python (models.py, services.py, worker.py).

Modelling conventions:
* Python dicts used as contexts are modelled as association lists
  (`Ctx := List (String × String)`); `{**a, **b}` becomes `dictMerge a b`
  whose lookup semantics match Python (keys of `b` win).  Context values are
  opaque JSON scalars, modelled as strings (only structural equality is used).
* Python floats used for confidence scores are modelled as exact rationals,
  since every confidence produced by the code is a small decimal literal
  combination (0.5, 0.6 + k*0.1, 1.0).
* External collaborators (the Copilot Studio gateway, the activity that
  executes one agent request) are passed as function parameters; an
  activity that can raise is modelled as returning `Except String _`.
* Optional dataclass fields keep their Python defaults
  (`field(default_factory=dict)` becomes `some []`, `None` becomes `none`).
-/

namespace CopilotStudioExt

/-- models.py AgentRoutingPreference (PREFER_COPILOT_STUDIO is carried
here as PreferCopilotStudio). -/
inductive AgentRoutingPreference where
  | AUTO
  | PreferCopilotStudio
  | PREFER_AZURE_AI
  | COPILOT_STUDIO_ONLY
  | AZURE_AI_ONLY
deriving DecidableEq, Repr

/-- models.py AgentType (COPILOT_STUDIO is carried here as CopilotStudio,
matching its string tag in the code). -/
inductive AgentType where
  | CopilotStudio
  | AZURE_AI
  | POWER_AUTOMATE
  | HYBRID
deriving DecidableEq, Repr

/-- models.py TopicAction -/
inductive TopicAction where
  | START
  | CONTINUE
  | RESET
  | COMPLETE
  | ESCALATE
deriving DecidableEq, Repr

/-- A Python dict with string keys, modelled as an association list;
lookups take the first matching entry. -/
abbrev Ctx := List (String × String)

/-- dict lookup: d.get(k) -/
def ctxGet (c : Ctx) (k : String) : Option String :=
  c.lookup k

/-- Python dict merge {**a, **b}: keys of b win on conflict.  With
first-match lookup semantics, putting b in front realizes exactly that. -/
def dictMerge (a b : Ctx) : Ctx := b ++ a

/-- models.py ConversationRequest -/
structure ConversationRequest where
  user_id : String
  message : String
  conversation_id : Option String := none
  context : Option Ctx := some []
  routing_preference : AgentRoutingPreference := .AUTO
deriving DecidableEq, Repr

/-- models.py AgentResponse -/
structure AgentResponse where
  message : String
  agent_type : String
  agent_id : String
  conversation_id : Option String := none
  context : Option Ctx := some []
  requires_follow_up : Bool := false
  next_action : Option String := none
deriving DecidableEq, Repr

/-- models.py CopilotStudioRequest -/
structure CopilotStudioRequest where
  bot_id : String
  user_id : String
  message : String
  conversation_id : Option String := none
  topic : Option String := none
  -- called "variables" in models.py; that name is a reserved word in Lean
  vars : Option Ctx := some []
deriving DecidableEq, Repr

/-- models.py CopilotStudioResponse -/
structure CopilotStudioResponse where
  message : String
  conversation_id : String
  topic : Option String := none
  -- called "variables" in models.py; that name is a reserved word in Lean
  vars : Option Ctx := some []
  topic_completed : Bool := false
  next_topic : Option String := none
deriving DecidableEq, Repr

/-- models.py AgentRoutingDecision; confidence is a Python float, modelled
as an exact rational (see file header). -/
structure AgentRoutingDecision where
  selected_agent : AgentType
  reason : String
  confidence : ℚ
  routing_context : Option Ctx := some []
deriving DecidableEq, Repr

/-- models.py AgentCapability -/
structure AgentCapability where
  name : String
  description : String
  supported_by : List AgentType
  is_required : Bool := true
deriving DecidableEq, Repr

/-- models.py MultiAgentRequest -/
structure MultiAgentRequest where
  task_description : String
  required_capabilities : List AgentCapability
  user_id : String
  context : Option Ctx := some []
deriving DecidableEq, Repr

/-- models.py TopicManagementRequest -/
structure TopicManagementRequest where
  bot_id : String
  topic_id : String
  action : TopicAction
  parameters : Option Ctx := some []
deriving DecidableEq, Repr

/-- models.py AgentCollaborationStep -/
structure AgentCollaborationStep where
  agent_type : AgentType
  description : String
  prompt : String
  input_context : Option Ctx := some []
deriving DecidableEq, Repr

/-- needle is an initial segment of hay (Boolean, on char lists). -/
def charsLeadWith (needle hay : List Char) : Bool :=
  match needle, hay with
  | [], _ => true
  | _ :: _, [] => false
  | c :: cs, h :: hs => c == h && charsLeadWith cs hs

/-- needle occurs contiguously somewhere in hay (Boolean, on char lists). -/
def charsContain (hay needle : List Char) : Bool :=
  match hay with
  | [] => needle.isEmpty
  | _ :: hs => charsLeadWith needle hay || charsContain hs needle

/-- Python substring test: needle in hay. -/
def strContainsSub (hay needle : String) : Bool :=
  charsContain hay.toList needle.toList

/-- Python str.lower() (ASCII, which covers every keyword the code uses).
Defined over the character list so that it reduces in the kernel. -/
def strLower (s : String) : String :=
  ⟨s.data.map Char.toLower⟩

/-- services.py AgentRoutingService._determine_routing_with_rules: the
Copilot Studio keyword list. -/
def copilot_studio_keywords : List String :=
  ["workflow", "process", "step", "form", "approval", "business", "policy", "procedure"]

/-- services.py AgentRoutingService._determine_routing_with_rules: the
Azure AI keyword list. -/
def azure_ai_keywords : List String :=
  ["explain", "analyze", "creative", "generate", "complex", "reasoning", "technical", "code"]

/-- sum(1 for keyword in keywords if keyword in message) -/
def keywordScore (keywords : List String) (message : String) : Nat :=
  keywords.countP (fun kw => strContainsSub message kw)

/-- Python min(a, b) on two numbers, written out so that it reduces in the
kernel; agrees with Mathlib min (ratMin_eq_min below). -/
def ratMin (a b : ℚ) : ℚ :=
  if a ≤ b then a else b

/-- services.py AgentRoutingService._determine_routing_with_rules -/
def determine_routing_with_rules (request : ConversationRequest) : AgentRoutingDecision :=
  let message := strLower request.message
  let copilot_studio_score := keywordScore copilot_studio_keywords message
  let azure_ai_score := keywordScore azure_ai_keywords message
  if copilot_studio_score > azure_ai_score then
    { selected_agent := .CopilotStudio
      reason := "Message contains " ++ toString copilot_studio_score ++
        " Copilot Studio keywords indicating structured process"
      confidence := ratMin ((0.6 : ℚ) + (copilot_studio_score : ℚ) * 0.1) 1 }
  else if azure_ai_score > copilot_studio_score then
    { selected_agent := .AZURE_AI
      reason := "Message contains " ++ toString azure_ai_score ++
        " Azure AI keywords indicating complex reasoning needed"
      confidence := ratMin ((0.6 : ℚ) + (azure_ai_score : ℚ) * 0.1) 1 }
  else
    { selected_agent := .CopilotStudio
      reason := "No clear indicators, defaulting to Copilot Studio for structured handling"
      confidence := 0.5 }

/-- services.py AgentRoutingService._handle_explicit_routing -/
def handle_explicit_routing (request : ConversationRequest) : AgentRoutingDecision :=
  match request.routing_preference with
  | .PreferCopilotStudio =>
      { selected_agent := .CopilotStudio, reason := "User preference for Copilot Studio", confidence := 1 }
  | .PREFER_AZURE_AI =>
      { selected_agent := .AZURE_AI, reason := "User preference for Azure AI", confidence := 1 }
  | .COPILOT_STUDIO_ONLY =>
      { selected_agent := .CopilotStudio, reason := "User explicitly requested Copilot Studio only", confidence := 1 }
  | .AZURE_AI_ONLY =>
      { selected_agent := .AZURE_AI, reason := "User explicitly requested Azure AI only", confidence := 1 }
  | .AUTO => determine_routing_with_rules request

/-- services.py AgentRoutingService.determine_routing.  The body is pure, so
the Python try/except error branch (which would return a 0.5-confidence
Copilot Studio default) is unreachable in this embedding. -/
def determine_routing (request : ConversationRequest) : AgentRoutingDecision :=
  if request.routing_preference ≠ .AUTO then handle_explicit_routing request
  else determine_routing_with_rules request

/-! ## worker.py: collaboration planning -/

/-- worker.py _select_best_agent_for_capability -/
def select_best_agent_for_capability (capability : AgentCapability) : AgentType :=
  if AgentType.CopilotStudio ∈ capability.supported_by ∧
      (strContainsSub capability.name "workflow" ∨ strContainsSub capability.name "process") then
    .CopilotStudio
  else if AgentType.AZURE_AI ∈ capability.supported_by ∧
      (strContainsSub capability.name "analysis" ∨ strContainsSub capability.name "creative") then
    .AZURE_AI
  else
    -- capability.supported_by[0] if capability.supported_by else AgentType.CopilotStudio
    capability.supported_by.headD .CopilotStudio

/-- worker.py _create_prompt_for_capability -/
def create_prompt_for_capability (capability : AgentCapability) (task_description : String) : String :=
  "Task: " ++ task_description ++ "\n\nYour specific role: " ++ capability.description ++
    "\n\nFocus on the " ++ capability.name ++ " aspect of this task. " ++
    "Provide a clear, actionable response that can be used by other agents in this collaboration."

/-- worker.py _create_general_collaboration_plan -/
def create_general_collaboration_plan (request : MultiAgentRequest) : List AgentCollaborationStep :=
  let task := strLower request.task_description
  [{ agent_type := .CopilotStudio
     description := "Initial analysis and structure"
     prompt := "Analyze this request and provide a structured breakdown: " ++ request.task_description }]
  ++ (if ["complex", "analyze", "creative"].any (fun kw => strContainsSub task kw) then
        [{ agent_type := .AZURE_AI
           description := "Advanced analysis and recommendations"
           prompt := "Provide detailed analysis and recommendations for: " ++ request.task_description }]
      else [])
  ++ (if ["automate", "flow", "trigger"].any (fun kw => strContainsSub task kw) then
        [{ agent_type := .POWER_AUTOMATE
           description := "Automation workflow"
           prompt := "Design automation workflow for: " ++ request.task_description }]
      else [])

/-- worker.py plan_agent_collaboration, body of the try block after the input
has been decoded into a MultiAgentRequest: one step per declared capability,
or the general plan when none were declared. -/
def planSteps (request : MultiAgentRequest) : List AgentCollaborationStep :=
  let steps := request.required_capabilities.map (fun capability =>
    { agent_type := select_best_agent_for_capability capability
      description := "Handle " ++ capability.name ++ ": " ++ capability.description
      prompt := create_prompt_for_capability capability request.task_description
      input_context := request.context })
  if steps.isEmpty then create_general_collaboration_plan request else steps

/-- worker.py plan_agent_collaboration, fallback step built in the except
handler: AgentCollaborationStep(CopilotStudio, "Handle request with error
recovery", prompt derived from the raw task_description field). -/
def fallbackStep (task : String) : AgentCollaborationStep :=
  { agent_type := .CopilotStudio
    description := "Handle request with error recovery"
    prompt := "Process this request with error handling: " ++ task }

/-- The raw request_json payload handed to plan_agent_collaboration, viewed
through what the function observes of it:
* malformed: json.loads(request_json) raises;
* nonObject: valid JSON that is not an object, so from_dict returns it
  unchanged and attribute access raises, and in the except handler
  json.loads(request_json).get(...) raises AttributeError;
* object td dec: a JSON object whose task_description key holds td (none if
  absent), and whose decoding into a MultiAgentRequest either raises
  (dec = none, covering every exception of the try body) or yields dec. -/
inductive PlanPayload where
  | malformed
  | nonObject
  | object (task_description : Option String) (decoded : Option MultiAgentRequest)

/-- worker.py plan_agent_collaboration with its try/except: an
Except.error result models an exception propagating out of the activity
(the except handler itself re-parses request_json and can raise). -/
def plan_agent_collaboration (p : PlanPayload) : Except String (List AgentCollaborationStep) :=
  match p with
  | .malformed =>
      -- json.loads raises in the try body, then raises again in the handler
      .error "json.loads raised JSONDecodeError"
  | .nonObject =>
      -- attribute access raises in the try body, then .get raises in the handler
      .error "AttributeError raised in except handler"
  | .object td none =>
      .ok [fallbackStep (td.getD "Unknown task")]
  | .object _ (some request) =>
      .ok (planSteps request)

/-! ## worker.py: topic lifecycle -/

/-- worker.py _start_topic: the CopilotStudioRequest it sends to the gateway. -/
def startTopicRequest (request : TopicManagementRequest) : CopilotStudioRequest :=
  { bot_id := request.bot_id
    user_id := "system"
    message := "Start topic: " ++ request.topic_id
    topic := some request.topic_id
    vars := request.parameters }

/-- worker.py _continue_topic: the CopilotStudioRequest it sends to the gateway. -/
def continueTopicRequest (request : TopicManagementRequest) : CopilotStudioRequest :=
  { bot_id := request.bot_id
    user_id := "system"
    message := "Continue with current topic"
    topic := some request.topic_id
    vars := request.parameters }

/-- worker.py _start_topic, with the gateway
(power_platform_service.send_message_to_copilot_studio) passed in as gw. -/
def start_topic (gw : CopilotStudioRequest → CopilotStudioResponse)
    (request : TopicManagementRequest) : AgentResponse :=
  let response := gw (startTopicRequest request)
  { message := response.message
    agent_type := "CopilotStudio"
    agent_id := request.bot_id
    conversation_id := some response.conversation_id
    context := response.vars
    requires_follow_up := !response.topic_completed
    next_action := response.next_topic }

/-- worker.py _continue_topic, with the gateway passed in as gw. -/
def continue_topic (gw : CopilotStudioRequest → CopilotStudioResponse)
    (request : TopicManagementRequest) : AgentResponse :=
  let response := gw (continueTopicRequest request)
  { message := response.message
    agent_type := "CopilotStudio"
    agent_id := request.bot_id
    conversation_id := some response.conversation_id
    context := response.vars
    requires_follow_up := !response.topic_completed
    next_action := response.next_topic }

/-- worker.py _manage_topic_async.  TopicAction is a closed enum, so the
final raise ValueError branch of the Python code is unreachable here. -/
def manage_topic_async (gw : CopilotStudioRequest → CopilotStudioResponse)
    (request : TopicManagementRequest) : AgentResponse :=
  match request.action with
  | .START => start_topic gw request
  | .CONTINUE => continue_topic gw request
  | .RESET => start_topic gw request  -- Reset by starting fresh
  | .COMPLETE =>
      { message := "Topic " ++ request.topic_id ++ " has been completed successfully."
        agent_type := "CopilotStudio"
        agent_id := request.bot_id
        context := request.parameters
        requires_follow_up := false }
  | .ESCALATE =>
      { message := "Topic " ++ request.topic_id ++ " requires escalation to Azure AI for advanced assistance."
        agent_type := "CopilotStudio"
        agent_id := request.bot_id
        context := request.parameters
        requires_follow_up := true
        next_action := some "escalate" }

/-! ## worker.py: orchestrators

The orchestrators call activities through the durable-task runtime with JSON
payloads; the (de)serialization round-trip is identity-level plumbing and is
elided.  The execute_agent_request activity catches every exception and
returns an Error response, so it is modelled as a total function
execA : ConversationRequest → AgentRoutingDecision → AgentResponse
(its two activity-input fields "request" and "routing"). -/

/-- worker.py hybrid_agent_conversation_orchestrator: the escalation
ConversationRequest built when the first response asks to escalate. -/
def hybridEscalationRequest (request : ConversationRequest) (response : AgentResponse) :
    ConversationRequest :=
  { user_id := request.user_id
    message := "Continue conversation: " ++ response.message ++ ". Original request: " ++ request.message
    conversation_id := response.conversation_id
    context := response.context
    routing_preference := .AZURE_AI_ONLY }

/-- worker.py hybrid_agent_conversation_orchestrator: the combined response
built after an escalation round-trip. -/
def hybridMerge (response escalation_response : AgentResponse) : AgentResponse :=
  { message := response.message ++ "\n\n[Escalated to Azure AI]\n" ++ escalation_response.message
    agent_type := "Hybrid"
    agent_id := "hybrid-routing"
    conversation_id := response.conversation_id
    context := some (dictMerge (response.context.getD []) (escalation_response.context.getD []))
    requires_follow_up := escalation_response.requires_follow_up }

/-- worker.py hybrid_agent_conversation_orchestrator, with the two
activities passed in (routeA = determine_agent_routing,
execA = execute_agent_request). -/
def hybrid_agent_conversation_orchestrator
    (routeA : ConversationRequest → AgentRoutingDecision)
    (execA : ConversationRequest → AgentRoutingDecision → AgentResponse)
    (request : ConversationRequest) : AgentResponse :=
  let routing_decision := routeA request
  let response := execA request routing_decision
  if response.requires_follow_up ∧ routing_decision.selected_agent = .CopilotStudio then
    if response.next_action = some "escalate" then
      hybridMerge response
        (execA (hybridEscalationRequest request response)
          { selected_agent := .AZURE_AI, reason := "Follow-up escalation", confidence := 1 })
    else response
  else response

/-- worker.py topic_based_conversation_orchestrator: the escalation
ConversationRequest. -/
def topicEscalationRequest (request : TopicManagementRequest) (response : AgentResponse) :
    ConversationRequest :=
  { user_id := "system"
    message := "Handle escalation from Copilot Studio topic " ++ request.topic_id ++ ": " ++ response.message
    context := response.context
    routing_preference := .AZURE_AI_ONLY }

/-- worker.py topic_based_conversation_orchestrator: the combined response
built after an escalation round-trip.  The constructor call passes no
requires_follow_up, so the dataclass default False applies. -/
def topicMerge (response escalation_response : AgentResponse) : AgentResponse :=
  { message := response.message ++ "\n\n[Escalated Response]\n" ++ escalation_response.message
    agent_type := "Hybrid"
    agent_id := "topic-escalation"
    conversation_id := response.conversation_id
    context := some (dictMerge (response.context.getD []) (escalation_response.context.getD [])) }

/-- worker.py topic_based_conversation_orchestrator, with the two activities
passed in (manageA = manage_topic, execA = execute_agent_request). -/
def topic_based_conversation_orchestrator
    (manageA : TopicManagementRequest → AgentResponse)
    (execA : ConversationRequest → AgentRoutingDecision → AgentResponse)
    (request : TopicManagementRequest) : AgentResponse :=
  let response := manageA request
  if response.next_action = some "escalate" then
    topicMerge response
      (execA (topicEscalationRequest request response)
        { selected_agent := .AZURE_AI, reason := "Topic escalation", confidence := 1 })
  else response

/-- worker.py _get_routing_preference -/
def get_routing_preference (agent_type : AgentType) : AgentRoutingPreference :=
  match agent_type with
  | .CopilotStudio => .COPILOT_STUDIO_ONLY
  | .AZURE_AI => .AZURE_AI_ONLY
  | _ => .AUTO

/-- worker.py multi_agent_collaboration_orchestrator: the per-step
ConversationRequest. -/
def stepRequest (user_id : String) (step : AgentCollaborationStep) : ConversationRequest :=
  { user_id := user_id
    message := step.prompt
    context := step.input_context
    routing_preference := get_routing_preference step.agent_type }

/-- worker.py multi_agent_collaboration_orchestrator, the line
plan[i+1].input_context = {**(plan[i+1].input_context or {}), **(resp.context or {})}
seen as a patch applied to the next step just before it is used. -/
def applyPatch (patch : Option Ctx) (step : AgentCollaborationStep) : AgentCollaborationStep :=
  match patch with
  | none => step
  | some c => { step with input_context := some (dictMerge (step.input_context.getD []) c) }

/-- worker.py multi_agent_collaboration_orchestrator, the for-loop over the
plan, recorded as the trace of execute_agent_request activity calls (request
sent, and the response or the exception that aborted the loop).  The loop
mutates only plan[i+1].input_context and does so exactly once, immediately
after step i runs, so it is equivalent to carrying the pending context patch
into the next iteration.  execA may raise (Except.error), matching a failing
activity call. -/
def collabTrace (execA : ConversationRequest → Except String AgentResponse) (uid : String)
    (patch : Option Ctx) :
    List AgentCollaborationStep → List (ConversationRequest × Except String AgentResponse)
  | [] => []
  | step :: rest =>
    let req := stepRequest uid (applyPatch patch step)
    match execA req with
    | .error e => [(req, .error e)]
    | .ok r => (req, .ok r) :: collabTrace execA uid (some (r.context.getD [])) rest

/-- worker.py multi_agent_collaboration_orchestrator, the error response
appended in the except handler. -/
def collabErrorResponse (e : String) : AgentResponse :=
  { message := "I encountered an error during the multi-agent collaboration. Please try again."
    agent_type := "Error"
    agent_id := "system"
    context := some [("error", e)] }

/-- worker.py multi_agent_collaboration_orchestrator: the returned response
list.  Successful steps contribute their responses in order; if a step
raises, the loop stops and the except handler appends one error response to
the responses gathered so far. -/
def multi_agent_collaboration_orchestrator
    (execA : ConversationRequest → Except String AgentResponse) (uid : String)
    (steps : List AgentCollaborationStep) : List AgentResponse :=
  (collabTrace execA uid none steps).map (fun p =>
    match p.2 with
    | .ok r => r
    | .error e => collabErrorResponse e)

/-- The responses of the successfully executed steps of a run (the partial
result list gathered before any failure). -/
def collabOkResponses (execA : ConversationRequest → Except String AgentResponse) (uid : String)
    (patch : Option Ctx) (steps : List AgentCollaborationStep) : List AgentResponse :=
  (collabTrace execA uid patch steps).filterMap (fun p =>
    match p.2 with
    | .ok r => some r
    | .error _ => none)

/-- The exception that aborted a run, if any. -/
def collabFirstError (execA : ConversationRequest → Except String AgentResponse) (uid : String)
    (patch : Option Ctx) (steps : List AgentCollaborationStep) : Option String :=
  ((collabTrace execA uid patch steps).filterMap (fun p =>
    match p.2 with
    | .error e => some e
    | .ok _ => none)).head?

/-! ## Helper lemmas -/

/-- ratMin is Mathlib's min on ℚ. -/
theorem ratMin_eq_min (a b : ℚ) : ratMin a b = min a b := by
  rw [ratMin, min_def]

/-- Lookup in a merged dict: keys of b win, a fills the rest. -/
theorem ctxGet_dictMerge (a b : Ctx) (k : String) :
    ctxGet (dictMerge a b) k = (ctxGet b k).orElse (fun _ => ctxGet a k) := by
  rw [dictMerge, ctxGet, ctxGet, ctxGet]
  induction b with
  | nil => simp
  | cons p rest ih =>
      by_cases hk : k == p.1
      · simp [List.lookup, hk]
      · simpa [List.lookup, hk] using ih

/-- applyPatch only rewrites input_context; the step's agent type is kept. -/
theorem applyPatch_agent_type (patch : Option Ctx) (s : AgentCollaborationStep) :
    (applyPatch patch s).agent_type = s.agent_type := by
  cases patch <;> rfl

/-! ## Claim theorems -/

/-- C2: for every request with routingPreference AUTO, the routing decision
follows the two keyword counts over the lower-cased message: a strictly
higher structured count selects CopilotStudio with confidence
min(0.6 + 0.1*count, 1.0), symmetrically for AZURE_AI, and equal counts
(including 0-0) select CopilotStudio with confidence 0.5. -/
theorem auto_routing_keyword_rules (req : ConversationRequest)
    (h : req.routing_preference = AgentRoutingPreference.AUTO) :
    (keywordScore azure_ai_keywords (strLower req.message) <
        keywordScore copilot_studio_keywords (strLower req.message) →
      (determine_routing req).selected_agent = AgentType.CopilotStudio ∧
      (determine_routing req).confidence =
        min ((0.6 : ℚ) + (keywordScore copilot_studio_keywords (strLower req.message) : ℚ) * 0.1) 1) ∧
    (keywordScore copilot_studio_keywords (strLower req.message) <
        keywordScore azure_ai_keywords (strLower req.message) →
      (determine_routing req).selected_agent = AgentType.AZURE_AI ∧
      (determine_routing req).confidence =
        min ((0.6 : ℚ) + (keywordScore azure_ai_keywords (strLower req.message) : ℚ) * 0.1) 1) ∧
    (keywordScore copilot_studio_keywords (strLower req.message) =
        keywordScore azure_ai_keywords (strLower req.message) →
      (determine_routing req).selected_agent = AgentType.CopilotStudio ∧
      (determine_routing req).confidence = 0.5) := by
  rw [determine_routing, if_neg (by simp [h]), determine_routing_with_rules]
  refine ⟨fun hgt => ?_, fun hgt => ?_, fun heq => ?_⟩
  · rw [if_pos hgt]
    exact ⟨rfl, ratMin_eq_min _ _⟩
  · rw [if_neg (by omega), if_pos hgt]
    exact ⟨rfl, ratMin_eq_min _ _⟩
  · rw [if_neg (by omega), if_neg (by omega)]
    exact ⟨rfl, rfl⟩

/-- Witness for auto_routing_keyword_rules at the concrete AUTO request
"analyze code" (0 structured keywords, 2 reasoning keywords). -/
theorem auto_routing_keyword_rules_witness :
    (determine_routing { user_id := "u", message := "analyze code" }).selected_agent =
      AgentType.AZURE_AI :=
  ((auto_routing_keyword_rules { user_id := "u", message := "analyze code" } rfl).2.1
    (by decide)).1

/-- C3: for every request whose routingPreference is not AUTO, the selected
agent follows the preference mapping (PREFER/ONLY Copilot Studio variants
map to CopilotStudio, PREFER/ONLY Azure AI variants to AZURE_AI) with
confidence 1.0, and the message content has no influence at all.  The AUTO
row of the mapping below is excluded by the hypothesis. -/
theorem explicit_routing_preference_mapping (req : ConversationRequest)
    (h : req.routing_preference ≠ AgentRoutingPreference.AUTO) :
    (determine_routing req).confidence = 1 ∧
    (determine_routing req).selected_agent =
      (match req.routing_preference with
       | .PreferCopilotStudio => AgentType.CopilotStudio
       | .COPILOT_STUDIO_ONLY => AgentType.CopilotStudio
       | .PREFER_AZURE_AI => AgentType.AZURE_AI
       | .AZURE_AI_ONLY => AgentType.AZURE_AI
       | .AUTO => AgentType.CopilotStudio) ∧
    (∀ m : String, determine_routing { req with message := m } = determine_routing req) := by
  rcases req with ⟨uid, msg, cid, ctx, pref⟩
  cases pref <;>
    simp_all [determine_routing, handle_explicit_routing]

/-- Witness for explicit_routing_preference_mapping at a concrete
AZURE_AI_ONLY request. -/
theorem explicit_routing_preference_mapping_witness :
    (determine_routing ⟨"u", "workflow approval process", none, some [], .AZURE_AI_ONLY⟩).confidence = 1 :=
  (explicit_routing_preference_mapping
    ⟨"u", "workflow approval process", none, some [], .AZURE_AI_ONLY⟩ (by decide)).1

/-- C5 counterexample: on the request {message: "Help me create a workflow
for approval", routingPreference: AUTO} the claimed confidence 0.7 is wrong:
the two structured-keyword matches give min(0.6 + 2*0.1, 1.0) = 0.8. -/
theorem workflow_approval_confidence_not_07 :
    (determine_routing
      { user_id := "user", message := "Help me create a workflow for approval" }).confidence ≠
      (0.7 : ℚ) := by
  have h1 : keywordScore copilot_studio_keywords (strLower "Help me create a workflow for approval") = 2 := by
    decide
  have h2 : keywordScore azure_ai_keywords (strLower "Help me create a workflow for approval") = 0 := by
    decide
  rw [determine_routing]
  norm_num [determine_routing_with_rules, h1, h2, ratMin]

/-- C5 amended: the request {message: "Help me create a workflow for
approval", routingPreference: AUTO} routes to CopilotStudio with
confidence 0.8, with exactly 2 structured-keyword matches ("workflow" and
"approval"), and the reason cites the structured-keyword count. -/
theorem workflow_approval_scenario :
    (determine_routing
      { user_id := "user", message := "Help me create a workflow for approval" }).selected_agent =
      AgentType.CopilotStudio ∧
    (determine_routing
      { user_id := "user", message := "Help me create a workflow for approval" }).confidence = 0.8 ∧
    keywordScore copilot_studio_keywords (strLower "Help me create a workflow for approval") = 2 ∧
    strContainsSub (strLower "Help me create a workflow for approval") "workflow" = true ∧
    strContainsSub (strLower "Help me create a workflow for approval") "approval" = true ∧
    (determine_routing
      { user_id := "user", message := "Help me create a workflow for approval" }).reason =
      "Message contains 2 Copilot Studio keywords indicating structured process" := by
  have h1 : keywordScore copilot_studio_keywords (strLower "Help me create a workflow for approval") = 2 := by
    decide
  have h2 : keywordScore azure_ai_keywords (strLower "Help me create a workflow for approval") = 0 := by
    decide
  refine ⟨?_, ?_, h1, by decide, by decide, ?_⟩
  · rw [determine_routing]
    norm_num [determine_routing_with_rules, h1, h2, ratMin]
  · rw [determine_routing]
    norm_num [determine_routing_with_rules, h1, h2, ratMin]
  · rw [determine_routing]
    norm_num [determine_routing_with_rules, h1, h2, ratMin]
    decide

/-- C9: a RESET topic request is handled exactly like the same request with
action START: identical gateway interaction and identical response, for
every behavior of the gateway. -/
theorem reset_equals_start (gw : CopilotStudioRequest → CopilotStudioResponse)
    (bot_id topic_id : String) (parameters : Option Ctx) :
    manage_topic_async gw
      { bot_id := bot_id, topic_id := topic_id, action := .RESET, parameters := parameters } =
    manage_topic_async gw
      { bot_id := bot_id, topic_id := topic_id, action := .START, parameters := parameters } := rfl

/-- C1 counterexample: in the topic-based workflow, a topic response with
requiresFollowUp = false and nextAction = "escalate" does NOT satisfy the
claimed sole trigger (both flags together), yet the coordinator does not
return it unmodified: it escalates and returns a merged "Hybrid" response. -/
theorem topic_escalates_without_follow_up_flag :
    (⟨"m", "CopilotStudio", "b", none, some [], false, some "escalate"⟩ : AgentResponse).requires_follow_up
      = false ∧
    topic_based_conversation_orchestrator
      (fun _ => ⟨"m", "CopilotStudio", "b", none, some [], false, some "escalate"⟩)
      (fun _ _ => ⟨"em", "AzureAI", "a", none, some [], false, none⟩)
      ⟨"bot", "t", .START, some []⟩ ≠
      ⟨"m", "CopilotStudio", "b", none, some [], false, some "escalate"⟩ := by
  exact ⟨rfl, by decide⟩

/-- C1 amended: the hybrid workflow escalates exactly when the response has
requiresFollowUp = true AND the routing decision selected CopilotStudio
AND nextAction = "escalate"; the topic-based workflow escalates exactly when
nextAction = "escalate", regardless of requiresFollowUp.  In all other
cases the coordinator returns the first response unmodified. -/
theorem escalation_trigger_characterization
    (routeA : ConversationRequest → AgentRoutingDecision)
    (execA : ConversationRequest → AgentRoutingDecision → AgentResponse)
    (manageA : TopicManagementRequest → AgentResponse)
    (request : ConversationRequest) (treq : TopicManagementRequest) :
    hybrid_agent_conversation_orchestrator routeA execA request =
      (if (execA request (routeA request)).requires_follow_up = true ∧
          (routeA request).selected_agent = AgentType.CopilotStudio ∧
          (execA request (routeA request)).next_action = some "escalate" then
        hybridMerge (execA request (routeA request))
          (execA (hybridEscalationRequest request (execA request (routeA request)))
            { selected_agent := .AZURE_AI, reason := "Follow-up escalation", confidence := 1 })
      else execA request (routeA request)) ∧
    topic_based_conversation_orchestrator manageA execA treq =
      (if (manageA treq).next_action = some "escalate" then
        topicMerge (manageA treq)
          (execA (topicEscalationRequest treq (manageA treq))
            { selected_agent := .AZURE_AI, reason := "Topic escalation", confidence := 1 })
      else manageA treq) := by
  constructor
  · simp only [hybrid_agent_conversation_orchestrator]
    split_ifs <;> first | rfl | tauto
  · simp only [topic_based_conversation_orchestrator]

/-- C10: when the topic-based workflow escalates, the merged response's
requiresFollowUp is always false, regardless of the escalation response's
flag; the hybrid workflow's merged response instead copies the escalation
response's flag. -/
theorem merged_follow_up_flags
    (routeA : ConversationRequest → AgentRoutingDecision)
    (execA : ConversationRequest → AgentRoutingDecision → AgentResponse)
    (manageA : TopicManagementRequest → AgentResponse)
    (request : ConversationRequest) (treq : TopicManagementRequest) :
    ((manageA treq).next_action = some "escalate" →
      (topic_based_conversation_orchestrator manageA execA treq).requires_follow_up = false) ∧
    ((execA request (routeA request)).requires_follow_up = true ∧
        (routeA request).selected_agent = AgentType.CopilotStudio ∧
        (execA request (routeA request)).next_action = some "escalate" →
      (hybrid_agent_conversation_orchestrator routeA execA request).requires_follow_up =
        (execA (hybridEscalationRequest request (execA request (routeA request)))
          { selected_agent := .AZURE_AI, reason := "Follow-up escalation", confidence := 1 }).requires_follow_up) := by
  constructor
  · intro h
    simp only [topic_based_conversation_orchestrator, if_pos h]
    rfl
  · rintro ⟨h1, h2, h3⟩
    simp only [hybrid_agent_conversation_orchestrator]
    rw [if_pos ⟨h1, h2⟩, if_pos h3]
    rfl

/-- C4 counterexample: in the multi-agent workflow, the per-step request of
an AUTOMATION (POWER_AUTOMATE) step carries routingPreference AUTO, which is
not a *_ONLY preference. -/
theorem automation_step_gets_auto_preference :
    ((collabTrace (fun _ => .ok ⟨"r", "PowerAutomate", "pa", none, some [], false, none⟩) "u" none
        [⟨.POWER_AUTOMATE, "d", "p", some []⟩]).map (fun p => p.1.routing_preference)) =
      [AgentRoutingPreference.AUTO] ∧
    AgentRoutingPreference.AUTO ≠ AgentRoutingPreference.COPILOT_STUDIO_ONLY ∧
    AgentRoutingPreference.AUTO ≠ AgentRoutingPreference.AZURE_AI_ONLY := by
  refine ⟨rfl, by decide, by decide⟩

/-- C4 amended: every per-step request of the multi-agent workflow carries
the routing preference given by the step's agent type: CopilotStudio maps
to COPILOT_STUDIO_ONLY, AZURE_AI to AZURE_AI_ONLY, and POWER_AUTOMATE and
HYBRID steps map to AUTO (there is no *_ONLY preference for them). -/
theorem step_request_preference_mapping
    (execA : ConversationRequest → Except String AgentResponse) (uid : String)
    (patch : Option Ctx) (steps : List AgentCollaborationStep) (i : Nat)
    (req : ConversationRequest) (res : Except String AgentResponse)
    (h : (collabTrace execA uid patch steps)[i]? = some (req, res)) :
    ∃ step, steps[i]? = some step ∧
      req.routing_preference =
        (match step.agent_type with
         | .CopilotStudio => AgentRoutingPreference.COPILOT_STUDIO_ONLY
         | .AZURE_AI => AgentRoutingPreference.AZURE_AI_ONLY
         | .POWER_AUTOMATE => AgentRoutingPreference.AUTO
         | .HYBRID => AgentRoutingPreference.AUTO) := by
  induction steps generalizing patch i with
  | nil => simp [collabTrace] at h
  | cons s rest ih =>
      have hpref : (stepRequest uid (applyPatch patch s)).routing_preference =
          (match s.agent_type with
           | .CopilotStudio => AgentRoutingPreference.COPILOT_STUDIO_ONLY
           | .AZURE_AI => AgentRoutingPreference.AZURE_AI_ONLY
           | .POWER_AUTOMATE => AgentRoutingPreference.AUTO
           | .HYBRID => AgentRoutingPreference.AUTO) := by
        show get_routing_preference (applyPatch patch s).agent_type = _
        rw [applyPatch_agent_type]
        cases s.agent_type <;> rfl
      cases hex : execA (stepRequest uid (applyPatch patch s)) with
      | error e =>
          simp only [collabTrace, hex] at h
          cases i with
          | zero =>
              simp only [List.getElem?_cons_zero, Option.some.injEq, Prod.mk.injEq] at h
              exact ⟨s, by simp, h.1 ▸ hpref⟩
          | succ j => simp at h
      | ok r =>
          simp only [collabTrace, hex] at h
          cases i with
          | zero =>
              simp only [List.getElem?_cons_zero, Option.some.injEq, Prod.mk.injEq] at h
              exact ⟨s, by simp, h.1 ▸ hpref⟩
          | succ j =>
              simp only [List.getElem?_cons_succ] at h
              obtain ⟨step, hstep, hp⟩ := ih (some (r.context.getD [])) j h
              exact ⟨step, by simpa using hstep, hp⟩

/-- Witness for merged_follow_up_flags: concrete workflows whose escalation
responses carry requiresFollowUp = true; the topic-based merge still reports
false while the hybrid merge copies the true. -/
theorem merged_follow_up_flags_witness :
    (topic_based_conversation_orchestrator
      (fun _ => ⟨"tm", "CopilotStudio", "b", none, some [], true, some "escalate"⟩)
      (fun req _ => if req.routing_preference = .AZURE_AI_ONLY then
          ⟨"esc", "AzureAI", "a", none, some [], true, none⟩
        else ⟨"first", "CopilotStudio", "c", none, some [], true, some "escalate"⟩)
      ⟨"bot", "t", .START, some []⟩).requires_follow_up = false ∧
    (hybrid_agent_conversation_orchestrator
      (fun _ => ⟨.CopilotStudio, "r", 1, some []⟩)
      (fun req _ => if req.routing_preference = .AZURE_AI_ONLY then
          ⟨"esc", "AzureAI", "a", none, some [], true, none⟩
        else ⟨"first", "CopilotStudio", "c", none, some [], true, some "escalate"⟩)
      ⟨"u", "hello", none, some [], .AUTO⟩).requires_follow_up = true := by
  have h := merged_follow_up_flags
    (fun _ => ⟨.CopilotStudio, "r", 1, some []⟩)
    (fun req _ => if req.routing_preference = .AZURE_AI_ONLY then
        ⟨"esc", "AzureAI", "a", none, some [], true, none⟩
      else ⟨"first", "CopilotStudio", "c", none, some [], true, some "escalate"⟩)
    (fun _ => ⟨"tm", "CopilotStudio", "b", none, some [], true, some "escalate"⟩)
    ⟨"u", "hello", none, some [], .AUTO⟩
    ⟨"bot", "t", .START, some []⟩
  exact ⟨h.1 (by decide), (h.2 ⟨by decide, by decide, by decide⟩).trans (by decide)⟩

/-- Witness for step_request_preference_mapping at a one-step AUTOMATION
plan: the step request carries preference AUTO. -/
theorem step_request_preference_mapping_witness :
    (stepRequest "u" ⟨.POWER_AUTOMATE, "d", "p", some []⟩).routing_preference =
      AgentRoutingPreference.AUTO := by
  obtain ⟨s, hs, hp⟩ := step_request_preference_mapping
    (fun _ => .ok ⟨"r", "PowerAutomate", "pa", none, some [], false, none⟩) "u" none
    [⟨.POWER_AUTOMATE, "d", "p", some []⟩] 0
    (stepRequest "u" ⟨.POWER_AUTOMATE, "d", "p", some []⟩)
    (.ok ⟨"r", "PowerAutomate", "pa", none, some [], false, none⟩) (by simp [collabTrace, applyPatch])
  rw [show ([⟨.POWER_AUTOMATE, "d", "p", some []⟩] :
    List AgentCollaborationStep)[0]? = some ⟨.POWER_AUTOMATE, "d", "p", some []⟩ by simp] at hs
  cases hs
  exact hp

/-- C6: in the multi-agent workflow, whenever step i succeeds with response
r and step i+1 is then executed, step i+1's effective input context is its
original input context overlaid with r's context: every key of r's context
appears with r's value (overwriting a shared key), and every key absent
from r's context keeps its original lookup. -/
theorem context_propagation_merge
    (execA : ConversationRequest → Except String AgentResponse) (uid : String)
    (patch : Option Ctx) (steps : List AgentCollaborationStep) (i : Nat)
    (req : ConversationRequest) (r : AgentResponse)
    (req' : ConversationRequest) (res' : Except String AgentResponse)
    (nextStep : AgentCollaborationStep)
    (h1 : (collabTrace execA uid patch steps)[i]? = some (req, .ok r))
    (h2 : (collabTrace execA uid patch steps)[i + 1]? = some (req', res'))
    (h3 : steps[i + 1]? = some nextStep) :
    req'.context = some (dictMerge (nextStep.input_context.getD []) (r.context.getD [])) ∧
    (∀ k v, ctxGet (r.context.getD []) k = some v → ctxGet (req'.context.getD []) k = some v) ∧
    (∀ k, ctxGet (r.context.getD []) k = none →
      ctxGet (req'.context.getD []) k = ctxGet (nextStep.input_context.getD []) k) := by
  have main : req'.context =
      some (dictMerge (nextStep.input_context.getD []) (r.context.getD [])) := by
    induction steps generalizing patch i with
    | nil => simp [collabTrace] at h1
    | cons s rest ih =>
        cases hex : execA (stepRequest uid (applyPatch patch s)) with
        | error e =>
            simp only [collabTrace, hex] at h1 h2
            cases i with
            | zero => simp at h2
            | succ j => simp at h1
        | ok r0 =>
            simp only [collabTrace, hex] at h1 h2
            cases i with
            | zero =>
                simp only [List.getElem?_cons_zero, Option.some.injEq, Prod.mk.injEq] at h1
                obtain ⟨-, hr⟩ := h1
                have hr0 : r0 = r := by injection hr
                simp only [List.getElem?_cons_succ] at h2
                cases rest with
                | nil => simp [collabTrace] at h2
                | cons nxt others =>
                    have h3' : nxt = nextStep := by simpa using h3
                    subst h3'
                    have hctx : req'.context =
                        (applyPatch (some (r0.context.getD [])) nxt).input_context := by
                      cases hex2 : execA (stepRequest uid
                          (applyPatch (some (r0.context.getD [])) nxt)) with
                      | error e2 =>
                          simp only [collabTrace, hex2, List.getElem?_cons_zero,
                            Option.some.injEq, Prod.mk.injEq] at h2
                          rw [← h2.1]
                          rfl
                      | ok r2 =>
                          simp only [collabTrace, hex2, List.getElem?_cons_zero,
                            Option.some.injEq, Prod.mk.injEq] at h2
                          rw [← h2.1]
                          rfl
                    rw [hctx, ← hr0]
                    rfl
            | succ j =>
                simp only [List.getElem?_cons_succ] at h1 h2
                exact ih (some (r0.context.getD [])) j h1 h2 (by simpa using h3)
  refine ⟨main, ?_, ?_⟩
  · intro k v hv
    rw [main]
    simp only [Option.getD_some]
    rw [ctxGet_dictMerge, hv]
    rfl
  · intro k hk
    rw [main]
    simp only [Option.getD_some]
    rw [ctxGet_dictMerge, hk]
    rfl

/-- Witness for context_propagation_merge on a two-step run: the first
step's response context [("k","v1"),("shared","new")] overlays the second
step's original context [("orig","o"),("shared","old")]. -/
theorem context_propagation_merge_witness :
    ctxGet ((stepRequest "u" (applyPatch (some [("k", "v1"), ("shared", "new")])
        ⟨.AZURE_AI, "d2", "p2", some [("orig", "o"), ("shared", "old")]⟩)).context.getD [])
      "shared" = some "new" ∧
    ctxGet ((stepRequest "u" (applyPatch (some [("k", "v1"), ("shared", "new")])
        ⟨.AZURE_AI, "d2", "p2", some [("orig", "o"), ("shared", "old")]⟩)).context.getD [])
      "orig" = some "o" := by
  obtain ⟨hmain, hwin, hkeep⟩ := context_propagation_merge
    (fun req => if req.message = "p1" then
        .ok ⟨"ok1", "CopilotStudio", "c", none, some [("k", "v1"), ("shared", "new")], false, none⟩
      else .ok ⟨"ok2", "AzureAI", "a", none, some [], false, none⟩)
    "u" none
    [⟨.CopilotStudio, "d1", "p1", some []⟩,
     ⟨.AZURE_AI, "d2", "p2", some [("orig", "o"), ("shared", "old")]⟩]
    0
    (stepRequest "u" ⟨.CopilotStudio, "d1", "p1", some []⟩)
    ⟨"ok1", "CopilotStudio", "c", none, some [("k", "v1"), ("shared", "new")], false, none⟩
    (stepRequest "u" (applyPatch (some [("k", "v1"), ("shared", "new")])
      ⟨.AZURE_AI, "d2", "p2", some [("orig", "o"), ("shared", "old")]⟩))
    (.ok ⟨"ok2", "AzureAI", "a", none, some [], false, none⟩)
    ⟨.AZURE_AI, "d2", "p2", some [("orig", "o"), ("shared", "old")]⟩
    rfl rfl (by simp)
  exact ⟨hwin "shared" "new" rfl, (hkeep "orig" rfl).trans rfl⟩

/-- If a run hits an error, the orchestrator output is the successful
responses followed by exactly one synthesized error response. -/
theorem collab_run_error_split
    (execA : ConversationRequest → Except String AgentResponse) (uid : String)
    (patch : Option Ctx) (steps : List AgentCollaborationStep) (e : String)
    (h : collabFirstError execA uid patch steps = some e) :
    (collabTrace execA uid patch steps).map (fun p =>
        match p.2 with
        | .ok r => r
        | .error e0 => collabErrorResponse e0) =
      collabOkResponses execA uid patch steps ++ [collabErrorResponse e] := by
  induction steps generalizing patch with
  | nil => simp [collabFirstError, collabTrace] at h
  | cons s rest ih =>
      cases hex : execA (stepRequest uid (applyPatch patch s)) with
      | error e0 =>
          have he : e0 = e := by
            simpa [collabFirstError, collabTrace, hex] using h
          subst he
          simp [collabTrace, hex, collabOkResponses]
      | ok r =>
          have h' : collabFirstError execA uid (some (r.context.getD [])) rest = some e := by
            simpa [collabFirstError, collabTrace, hex] using h
          have hrec := ih (some (r.context.getD [])) h'
          simp only [collabTrace, hex, List.map_cons, collabOkResponses, List.filterMap_cons]
          simp only [collabOkResponses] at hrec
          rw [hrec]
          rfl

/-- C7: if an exception aborts the multi-agent collaboration run, the
workflow returns the responses of the steps that had already succeeded,
followed by exactly one synthesized response with agentType "Error"
carrying the error in its context; no prior output is discarded. -/
theorem collaboration_error_keeps_prior_responses
    (execA : ConversationRequest → Except String AgentResponse) (uid : String)
    (steps : List AgentCollaborationStep) (e : String)
    (h : collabFirstError execA uid none steps = some e) :
    multi_agent_collaboration_orchestrator execA uid steps =
      collabOkResponses execA uid none steps ++ [collabErrorResponse e] ∧
    (collabErrorResponse e).agent_type = "Error" ∧
    ctxGet ((collabErrorResponse e).context.getD []) "error" = some e := by
  refine ⟨?_, rfl, rfl⟩
  rw [multi_agent_collaboration_orchestrator]
  exact collab_run_error_split execA uid none steps e h

/-- Witness for collaboration_error_keeps_prior_responses: a two-step run whose
second step raises "boom"; the first step's response is kept and the error
response is appended. -/
theorem collaboration_error_keeps_prior_responses_witness :
    multi_agent_collaboration_orchestrator
      (fun req => if req.message = "p2" then .error "boom"
        else .ok ⟨"ok1", "CopilotStudio", "c", none, some [("a", "1")], false, none⟩)
      "u" [⟨.CopilotStudio, "d1", "p1", some []⟩, ⟨.AZURE_AI, "d2", "p2", some []⟩] =
      collabOkResponses
        (fun req => if req.message = "p2" then .error "boom"
          else .ok ⟨"ok1", "CopilotStudio", "c", none, some [("a", "1")], false, none⟩)
        "u" none [⟨.CopilotStudio, "d1", "p1", some []⟩, ⟨.AZURE_AI, "d2", "p2", some []⟩] ++
        [collabErrorResponse "boom"] ∧
    collabOkResponses
      (fun req => if req.message = "p2" then .error "boom"
        else .ok ⟨"ok1", "CopilotStudio", "c", none, some [("a", "1")], false, none⟩)
      "u" none [⟨.CopilotStudio, "d1", "p1", some []⟩, ⟨.AZURE_AI, "d2", "p2", some []⟩] =
      [⟨"ok1", "CopilotStudio", "c", none, some [("a", "1")], false, none⟩] := by
  refine ⟨(collaboration_error_keeps_prior_responses
    (fun req => if req.message = "p2" then .error "boom"
      else .ok ⟨"ok1", "CopilotStudio", "c", none, some [("a", "1")], false, none⟩)
    "u" [⟨.CopilotStudio, "d1", "p1", some []⟩, ⟨.AZURE_AI, "d2", "p2", some []⟩]
    "boom" rfl).1, rfl⟩

/-- C8 counterexample: a payload that is not valid JSON makes the planning
activity raise even inside its own except handler (json.loads is re-run
there), so the exception propagates instead of yielding a fallback plan. -/
theorem plan_malformed_payload_propagates :
    plan_agent_collaboration PlanPayload.malformed =
      Except.error "json.loads raised JSONDecodeError" := rfl

/-- C8 amended: for every payload that is a JSON object, planning never
raises and never returns an empty plan; when decoding fails, the result is
the single fallback step targeting CopilotStudio with the error-recovery
description and a prompt derived from the raw task description.  (For
malformed or non-object payloads the except handler itself raises.) -/
theorem plan_object_payload_never_fails (td : Option String)
    (dec : Option MultiAgentRequest) :
    (∃ steps, plan_agent_collaboration (.object td dec) = .ok steps ∧ steps ≠ []) ∧
    plan_agent_collaboration (.object td none) =
      .ok [fallbackStep (td.getD "Unknown task")] ∧
    (fallbackStep (td.getD "Unknown task")).agent_type = AgentType.CopilotStudio ∧
    (fallbackStep (td.getD "Unknown task")).description = "Handle request with error recovery" ∧
    (fallbackStep (td.getD "Unknown task")).prompt =
      "Process this request with error handling: " ++ td.getD "Unknown task" := by
  refine ⟨?_, rfl, rfl, rfl, rfl⟩
  cases dec with
  | none => exact ⟨[fallbackStep (td.getD "Unknown task")], rfl, by simp⟩
  | some request =>
      refine ⟨planSteps request, rfl, ?_⟩
      simp only [planSteps]
      cases hreq : request.required_capabilities with
      | nil => simp [create_general_collaboration_plan]
      | cons c cs => simp

end CopilotStudioExt
